import Mathlib

/-!
Verification of the data-fetching, error-classification, hook-configuration
and timeline-merge layer of the React Football-Data client.

The definitions below are a shallow embedding of:
* `src/api/axios.config.ts` (response-error classification),
* `src/api/services/matches.service.ts` (request construction),
* `src/hooks/useMatches.ts`, `src/hooks/useCompetitions.ts`,
  `src/hooks/useCompetitionDetail.ts` (query configurations),
* `src/pages/CompetitionDetail.tsx` (page-level query gating),
* `src/components/matches/MatchTimeline.tsx` (timeline merge).

JavaScript numbers that are always integral here are modelled as `Int`
(or `Nat` for durations), nullable/omittable fields as `Option`, and the
stable `Array.prototype.sort` (stable since ES2019) as a stable insertion
sort.
-/

namespace FootballData

/-! ## HTTP client error classification (`src/api/axios.config.ts`) -/

/-- The four error kinds of the response interceptor taxonomy. -/
inductive ErrType
  | NETWORK_ERROR
  | CLIENT_ERROR
  | SERVER_ERROR
  | UNKNOWN_ERROR
deriving DecidableEq, Repr

/-- The part of an axios HTTP response the interceptor inspects:
the status code and the optional `data.error` message. -/
structure HttpResponse where
  status : Nat
  dataError : Option String
deriving DecidableEq, Repr

/-- An axios failure object: `error.response` is absent exactly when no
response reached the client (connectivity loss, DNS failure, timeout). -/
structure AxiosFailure where
  message : String
  response : Option HttpResponse
deriving DecidableEq, Repr

/-- The structured error the interceptor rejects with: in the source the
`status` field is set only on the 4xx and 5xx branches. -/
structure StructuredError where
  message : String
  status : Option Nat
  type : ErrType
deriving DecidableEq, Repr

/-- JavaScript `a || b` on an optional string (empty string is falsy). -/
def jsOrString (o : Option String) (d : String) : String :=
  match o with
  | some s => if s = "" then d else s
  | none => d

/-- The `switch (status)` of the 4xx branch choosing a default message. -/
def clientErrorMessage (status : Nat) : String :=
  if status = 400 then "Peticion incorrecta. Los parametros no son validos."
  else if status = 403 then "Acceso denegado. Verifica tu API Key o el plan de suscripcion."
  else if status = 404 then "Recurso no encontrado."
  else if status = 429 then "Limite de peticiones excedido. Intenta de nuevo mas tarde."
  else "Error en la peticion"

/-- The response interceptor of `axios.config.ts` (lines 83-152): no
response gives `NETWORK_ERROR`; a status in `[400, 500)` gives
`CLIENT_ERROR` carrying the status; a status `>= 500` gives
`SERVER_ERROR` carrying the status; anything else gives `UNKNOWN_ERROR`. -/
def classify (e : AxiosFailure) : StructuredError :=
  match e.response with
  | none =>
      { message := "No se puede conectar al servidor. " ++ e.message
        status := none
        type := .NETWORK_ERROR }
  | some r =>
      if 400 ≤ r.status ∧ r.status < 500 then
        { message := jsOrString r.dataError (clientErrorMessage r.status)
          status := some r.status
          type := .CLIENT_ERROR }
      else if 500 ≤ r.status then
        { message := "Error en el servidor. Intenta de nuevo mas tarde."
          status := some r.status
          type := .SERVER_ERROR }
      else
        { message := "Ha ocurrido un error inesperado"
          status := none
          type := .UNKNOWN_ERROR }

/-! ## Matches service (`src/api/services/matches.service.ts`) -/

/-- The nine match states of `football.types.ts` (the `GetMatchesOptions`
status filter uses the first eight). -/
inductive MatchStatus
  | SCHEDULED
  | TIMED
  | IN_PLAY
  | PAUSED
  | FINISHED
  | SUSPENDED
  | POSTPONED
  | CANCELLED
  | AWARDED
deriving DecidableEq, Repr

/-- The filter options of `MatchesService.getMatches`. -/
structure GetMatchesOptions where
  competitions : Option String := none
  ids : Option String := none
  date : Option String := none
  dateFrom : Option String := none
  dateTo : Option String := none
  status : Option MatchStatus := none
  season : Option Int := none
  matchday : Option Int := none
  stage : Option String := none
  group : Option String := none
  limit : Option Int := none
deriving DecidableEq, Repr

/-- The detail-expansion flags sent as custom request headers. -/
structure UnfoldOptions where
  lineups : Option Bool := none
  bookings : Option Bool := none
  substitutions : Option Bool := none
  goals : Option Bool := none
deriving DecidableEq, Repr

/-- JavaScript `String(b)` on a boolean. -/
def boolString (b : Bool) : String := if b then "true" else "false"

/-- Header construction repeated in `getMatches`, `getMatchById` and
`getHead2Head`: one `X-Unfold-*` header per flag that is not undefined. -/
def unfoldHeaders (u : UnfoldOptions) : List (String × String) :=
  (match u.lineups with
   | some b => [("X-Unfold-Lineups", boolString b)]
   | none => []) ++
  (match u.bookings with
   | some b => [("X-Unfold-Bookings", boolString b)]
   | none => []) ++
  (match u.substitutions with
   | some b => [("X-Unfold-Subs", boolString b)]
   | none => []) ++
  (match u.goals with
   | some b => [("X-Unfold-Goals", boolString b)]
   | none => [])

/-- The `params` object each service method passes to `axios.get`. -/
inductive ReqParams
  | matchesParams (o : GetMatchesOptions)
  | limitParam (limit : Int)
  | noParams
deriving DecidableEq, Repr

/-- The outbound HTTP request a service method issues. -/
structure ApiRequest where
  path : String
  params : ReqParams
  headers : List (String × String)
deriving DecidableEq, Repr

namespace MatchesService

/-- `MatchesService.getMatches`: GET `/matches` with the filter options as
query params and the unfold flags as headers. -/
def getMatches (options : GetMatchesOptions) (unfoldOptions : UnfoldOptions) : ApiRequest :=
  { path := "/matches"
    params := .matchesParams options
    headers := unfoldHeaders unfoldOptions }

/-- `MatchesService.getTodayMatches`: delegates to `getMatches({}, unfold)`. -/
def getTodayMatches (unfoldOptions : UnfoldOptions) : ApiRequest :=
  getMatches {} unfoldOptions

/-- `MatchesService.getMatchById`: GET `/matches/{id}` with unfold headers
and no query params. -/
def getMatchById (matchId : Int) (unfoldOptions : UnfoldOptions) : ApiRequest :=
  { path := "/matches/" ++ toString matchId
    params := .noParams
    headers := unfoldHeaders unfoldOptions }

/-- `MatchesService.getHead2Head`: GET `/matches/{id}/head2head` with a
`limit` query param and unfold headers. -/
def getHead2Head (matchId : Int) (limit : Int) (unfoldOptions : UnfoldOptions) : ApiRequest :=
  { path := "/matches/" ++ toString matchId ++ "/head2head"
    params := .limitParam limit
    headers := unfoldHeaders unfoldOptions }

/-- `MatchesService.getLiveMatches`: delegates to
`getMatches({ status: 'IN_PLAY' }, unfold)`. -/
def getLiveMatches (unfoldOptions : UnfoldOptions) : ApiRequest :=
  getMatches { status := some .IN_PLAY } unfoldOptions

/-- `MatchesService.getScheduledMatches`: delegates to `getMatches` with a
date range and `status: 'SCHEDULED'`, and default (empty) unfold options. -/
def getScheduledMatches (dateFrom : String) (dateTo : String)
    (competitions : Option String) : ApiRequest :=
  getMatches
    { dateFrom := some dateFrom
      dateTo := some dateTo
      status := some .SCHEDULED
      competitions := competitions }
    {}

end MatchesService

/-- `MatchCard.tsx` line 43: the UI treats a match as live when its status
is `IN_PLAY` or `PAUSED`. -/
def isLive (s : MatchStatus) : Bool :=
  s == .IN_PLAY || s == .PAUSED

/-- The status filter a request carries, when it is a `/matches` query. -/
def requestedStatus (r : ApiRequest) : Option MatchStatus :=
  match r.params with
  | .matchesParams o => o.status
  | _ => none

/-- The date filter a request carries, when it is a `/matches` query. -/
def requestedDate (r : ApiRequest) : Option String :=
  match r.params with
  | .matchesParams o => o.date
  | _ => none

/-! ## Timeline merge (`src/components/matches/MatchTimeline.tsx`) -/

/-- A goal event: nominal minute, optional additional-time offset, and the
payload fields the merge does not inspect (represented by the scorer). -/
structure Goal where
  minute : Int
  injuryTime : Option Int
  scorer : String
deriving DecidableEq, Repr

/-- A booking event. -/
structure Booking where
  minute : Int
  player : String
  card : String
deriving DecidableEq, Repr

/-- A substitution event. -/
structure Substitution where
  minute : Int
  playerOut : String
  playerIn : String
deriving DecidableEq, Repr

/-- The tag of a unified timeline event. -/
inductive EventType
  | goal
  | booking
  | substitution
deriving DecidableEq, Repr

/-- The payload of a unified timeline event. -/
inductive EventData
  | goal (g : Goal)
  | booking (b : Booking)
  | substitution (s : Substitution)
deriving DecidableEq, Repr

/-- The unified `TimelineEvent` of `MatchTimeline.tsx`. -/
structure TimelineEvent where
  minute : Int
  type : EventType
  data : EventData
deriving DecidableEq, Repr

/-- A goal is pushed with effective minute
`goal.minute + (goal.injuryTime || 0)`. -/
def goalEvent (g : Goal) : TimelineEvent :=
  { minute := g.minute + g.injuryTime.getD 0, type := .goal, data := .goal g }

/-- A booking is pushed with its nominal minute. -/
def bookingEvent (b : Booking) : TimelineEvent :=
  { minute := b.minute, type := .booking, data := .booking b }

/-- A substitution is pushed with its nominal minute. -/
def substitutionEvent (s : Substitution) : TimelineEvent :=
  { minute := s.minute, type := .substitution, data := .substitution s }

/-- Stable insertion behind strictly smaller minutes: an element is placed
before the first element whose minute is not smaller, so elements with
equal minutes keep their original relative order. -/
def insertByMinute (x : TimelineEvent) : List TimelineEvent → List TimelineEvent
  | [] => [x]
  | y :: ys => if x.minute ≤ y.minute then x :: y :: ys else y :: insertByMinute x ys

/-- Stable sort by minute, the model of
`events.sort((a, b) => a.minute - b.minute)` (stable per ES2019). -/
def sortByMinute (l : List TimelineEvent) : List TimelineEvent :=
  l.foldr insertByMinute []

/-- The event list built by `getTimelineEvents` before sorting: goals are
pushed first, then bookings, then substitutions, each in list order; an
absent list contributes nothing. -/
def timelineInput (goals : Option (List Goal)) (bookings : Option (List Booking))
    (substitutions : Option (List Substitution)) : List TimelineEvent :=
  (goals.getD []).map goalEvent ++
  (bookings.getD []).map bookingEvent ++
  (substitutions.getD []).map substitutionEvent

/-- `getTimelineEvents` of `MatchTimeline.tsx`: push all events, then sort
ascending by minute. -/
def getTimelineEvents (goals : Option (List Goal)) (bookings : Option (List Booking))
    (substitutions : Option (List Substitution)) : List TimelineEvent :=
  sortByMinute (timelineInput goals bookings substitutions)

/-! ## Query hooks (`useMatches.ts`, `useCompetitions.ts`,
`useCompetitionDetail.ts`)

Each hook is embedded as the configuration object it hands to the query
library. A field left unset by a hook is `none`; the library's defaults
(numeric retry 3 applied to every failure kind) are applied by
`effectiveRetry`/`retriesFor` below. -/

/-- Option structures of `useCompetitionDetail.ts`: `useStandings`. -/
structure StandingsOptions where
  season : Option String := none
  matchday : Option Int := none
  date : Option String := none
deriving DecidableEq, Repr

/-- Option structure of `useScorers`. -/
structure ScorersOptions where
  limit : Option Int := none
  season : Option String := none
deriving DecidableEq, Repr

/-- Option structure of `useTeams`. -/
structure TeamsOptions where
  season : Option String := none
deriving DecidableEq, Repr

/-- Option structure of `useCompetitionMatches`. -/
structure CompMatchesOptions where
  dateFrom : Option String := none
  dateTo : Option String := none
  stage : Option String := none
  status : Option String := none
  matchday : Option Int := none
  group : Option String := none
  season : Option String := none
deriving DecidableEq, Repr

/-- Option structure of `useCompetitions` (`competitions.service.ts`). -/
structure GetCompetitionsOptions where
  areas : Option String := none
deriving DecidableEq, Repr

/-- One component of a query key array: the hooks build heterogeneous
arrays of strings, numbers and option objects, compared structurally. -/
inductive KeyPart
  | str (s : String)
  | int (n : Int)
  | optInt (n : Option Int)
  | optStr (s : Option String)
  | matchOpts (o : GetMatchesOptions)
  | unfoldOpts (u : UnfoldOptions)
  | standingsOpts (o : Option StandingsOptions)
  | scorersOpts (o : Option ScorersOptions)
  | teamsOpts (o : Option TeamsOptions)
  | compMatchesOpts (o : Option CompMatchesOptions)
  | competitionsOpts (o : GetCompetitionsOptions)
deriving DecidableEq, Repr

/-- The options a hook passes to `useQuery`: key, freshness windows,
enablement, and the retry/polling fields it sets (`none` = not set). -/
structure QueryConfig where
  queryKey : List KeyPart
  staleTime : Nat
  gcTime : Nat
  enabled : Bool
  retry : Option Nat := none
  retryDelay : Option (Nat → Nat) := none
  refetchInterval : Option Nat := none
  refetchOnWindowFocus : Option Bool := none

/-- JavaScript `!!x` on an optional number (`null` and `0` are falsy). -/
def jsTruthyInt : Option Int → Bool
  | none => false
  | some n => !(n == 0)

/-- JavaScript `!!s` on an optional string (`null` and `""` are falsy). -/
def jsTruthyStr : Option String → Bool
  | none => false
  | some s => !(s == "")

/-- The `retryDelay` arrow function repeated in `useMatches.ts`:
`(attemptIndex) => Math.min(1000 * 2 ** attemptIndex, 30000)`. -/
def retryDelayFn (attemptIndex : Nat) : Nat :=
  min (1000 * 2 ^ attemptIndex) 30000

/-- `CACHE_TIME` of `useMatches.ts` (5 minutes). -/
def matchesCacheTime : Nat := 5 * 60 * 1000

/-- `STALE_TIME` of `useMatches.ts` (2 minutes). -/
def matchesStaleTime : Nat := 2 * 60 * 1000

/-- `CACHE_TIME` of `useCompetitions.ts` / `useCompetitionDetail.ts`
(10 minutes). -/
def competitionsCacheTime : Nat := 10 * 60 * 1000

/-- `STALE_TIME` of `useCompetitions.ts` / `useCompetitionDetail.ts`
(5 minutes). -/
def competitionsStaleTime : Nat := 5 * 60 * 1000

/-- `useMatches` (`useMatches.ts` lines 40-54). -/
def useMatches (options : GetMatchesOptions) (unfoldOptions : UnfoldOptions)
    (enabled : Bool) : QueryConfig :=
  { queryKey := [.str "matches", .matchOpts options, .unfoldOpts unfoldOptions]
    staleTime := matchesStaleTime
    gcTime := matchesCacheTime
    enabled := enabled
    retry := some 2
    retryDelay := some retryDelayFn }

/-- `useTodayMatches` (`useMatches.ts` lines 76-93). -/
def useTodayMatches (unfoldOptions : UnfoldOptions) (enabled : Bool) : QueryConfig :=
  { queryKey := [.str "matches", .str "today", .unfoldOpts unfoldOptions]
    staleTime := matchesStaleTime
    gcTime := matchesCacheTime
    enabled := enabled
    retry := some 2
    retryDelay := some retryDelayFn
    refetchOnWindowFocus := some true
    refetchInterval := some 60000 }

/-- `useMatchById` (`useMatches.ts` lines 113-130). -/
def useMatchById (matchId : Option Int) (unfoldOptions : UnfoldOptions)
    (enabled : Bool) : QueryConfig :=
  { queryKey := [.str "match", .optInt matchId, .unfoldOpts unfoldOptions]
    staleTime := matchesStaleTime
    gcTime := matchesCacheTime
    enabled := enabled && jsTruthyInt matchId
    retry := some 2
    retryDelay := some retryDelayFn }

/-- The query function of `useMatchById`: it throws
`'Match ID is required'` when the id is falsy, and otherwise issues the
service request. -/
def useMatchByIdQueryFn (matchId : Option Int) (unfoldOptions : UnfoldOptions) :
    Except String ApiRequest :=
  if jsTruthyInt matchId then
    .ok (MatchesService.getMatchById (matchId.getD 0) unfoldOptions)
  else
    .error "Match ID is required"

/-- `useLiveMatches` (`useMatches.ts` lines 147-163). -/
def useLiveMatches (unfoldOptions : UnfoldOptions) (enabled : Bool) : QueryConfig :=
  { queryKey := [.str "matches", .str "live", .unfoldOpts unfoldOptions]
    staleTime := 30000
    gcTime := matchesCacheTime
    enabled := enabled
    retry := some 2
    retryDelay := some retryDelayFn
    refetchOnWindowFocus := some true
    refetchInterval := some 30000 }

/-- `useHead2Head` (`useMatches.ts` lines 179-196). -/
def useHead2Head (matchId : Option Int) (limit : Int) (unfoldOptions : UnfoldOptions)
    (enabled : Bool) : QueryConfig :=
  { queryKey := [.str "match", .optInt matchId, .str "head2head", .int limit,
                 .unfoldOpts unfoldOptions]
    staleTime := matchesCacheTime
    gcTime := matchesCacheTime * 2
    enabled := enabled && jsTruthyInt matchId
    retry := some 1 }

/-- `useScheduledMatches` (`useMatches.ts` lines 216-231). -/
def useScheduledMatches (dateFrom : String) (dateTo : String)
    (competitions : Option String) (enabled : Bool) : QueryConfig :=
  { queryKey := [.str "matches", .str "scheduled", .str dateFrom, .str dateTo,
                 .optStr competitions]
    staleTime := matchesStaleTime
    gcTime := matchesCacheTime
    enabled := enabled
    retry := some 2
    retryDelay := some retryDelayFn }

/-- `useCompetitions` (`useCompetitions.ts` lines 38-49): sets no retry
and no polling interval. -/
def useCompetitions (options : GetCompetitionsOptions) (enabled : Bool) : QueryConfig :=
  { queryKey := [.str "competitions", .competitionsOpts options]
    staleTime := competitionsStaleTime
    gcTime := competitionsCacheTime
    enabled := enabled }

/-- `useFullCompetition` (`useCompetitionDetail.ts` lines 40-51). -/
def useFullCompetition (code : Option String) (enabled : Bool) : QueryConfig :=
  { queryKey := [.str "competition", .str "full", .optStr code]
    staleTime := competitionsStaleTime
    gcTime := competitionsCacheTime
    enabled := enabled && jsTruthyStr code }

/-- `useStandings` (`useCompetitionDetail.ts` lines 66-78). -/
def useStandings (code : Option String) (options : Option StandingsOptions)
    (enabled : Bool) : QueryConfig :=
  { queryKey := [.str "competition", .optStr code, .str "standings",
                 .standingsOpts options]
    staleTime := competitionsStaleTime
    gcTime := competitionsCacheTime
    enabled := enabled && jsTruthyStr code }

/-- `useScorers` (`useCompetitionDetail.ts` lines 93-105). -/
def useScorers (code : Option String) (options : Option ScorersOptions)
    (enabled : Bool) : QueryConfig :=
  { queryKey := [.str "competition", .optStr code, .str "scorers",
                 .scorersOpts options]
    staleTime := competitionsStaleTime
    gcTime := competitionsCacheTime
    enabled := enabled && jsTruthyStr code }

/-- `useTeams` (`useCompetitionDetail.ts` lines 120-132). -/
def useTeams (code : Option String) (options : Option TeamsOptions)
    (enabled : Bool) : QueryConfig :=
  { queryKey := [.str "competition", .optStr code, .str "teams",
                 .teamsOpts options]
    staleTime := competitionsStaleTime
    gcTime := competitionsCacheTime
    enabled := enabled && jsTruthyStr code }

/-- `useCompetitionMatches` (`useCompetitionDetail.ts` lines 148-168). -/
def useCompetitionMatches (code : Option String) (options : Option CompMatchesOptions)
    (enabled : Bool) : QueryConfig :=
  { queryKey := [.str "competition", .optStr code, .str "matches",
                 .compMatchesOpts options]
    staleTime := competitionsStaleTime
    gcTime := competitionsCacheTime
    enabled := enabled && jsTruthyStr code }

/-- React Query applies a numeric `retry` option as a bound on retries for
every failure, with no dependence on the error kind; a hook that sets no
`retry` gets the library default of 3. The hooks of this repository pass
only numbers (never a retry predicate), so the retry count for an error of
any type is the configured number. -/
def effectiveRetry (c : QueryConfig) : Nat := c.retry.getD 3

/-- Number of retries the hook layer performs for a failure of the given
kind: numeric `retry` does not discriminate between error types. -/
def retriesFor (c : QueryConfig) (_ : ErrType) : Nat := effectiveRetry c

/-! ## Query execution and page gating -/

/-- The observable state of a query: a disabled query never runs its query
function and stays pending with neither data nor error. -/
inductive QueryResult (α : Type)
  | pending
  | success (a : α)
  | failure (msg : String)
deriving DecidableEq, Repr

/-- The data a consumer sees: present exactly on success. -/
def QueryResult.dataOf {α : Type} : QueryResult α → Option α
  | .success a => some a
  | _ => none

/-- Run a query: when enabled, the query function's outcome; when
disabled, the query does not execute. -/
def runQuery {α : Type} (enabled : Bool) (fn : Except String α) : QueryResult α :=
  if enabled then
    match fn with
    | .ok a => .success a
    | .error m => .failure m
  else
    .pending

/-- The network request a query issues: none when disabled or when the
query function fails before reaching the network. -/
def issuedRequest (enabled : Bool) (fn : Except String ApiRequest) : Option ApiRequest :=
  if enabled then fn.toOption else none

/-- The observable result of `useMatchById` for a caller. -/
def useMatchByIdRun (matchId : Option Int) (unfoldOptions : UnfoldOptions)
    (enabled : Bool) : QueryResult ApiRequest :=
  runQuery (useMatchById matchId unfoldOptions enabled).enabled
    (useMatchByIdQueryFn matchId unfoldOptions)

/-- The parent resource of the competition page. -/
structure FullCompetition where
  id : Int
  code : String
  name : String
deriving DecidableEq, Repr

/-- `CompetitionDetail.tsx`: the enabled argument passed to all four child
hooks is `!!code && !!competition`, where `competition` is the parent
query's data. -/
def competitionDetailChildEnabled (code : Option String)
    (parent : QueryResult FullCompetition) : Bool :=
  jsTruthyStr code && parent.dataOf.isSome

/-- Effective enablement of the standings query on the competition page. -/
def standingsEnabledOnPage (code : Option String)
    (parent : QueryResult FullCompetition) : Bool :=
  (useStandings code none (competitionDetailChildEnabled code parent)).enabled

/-- Effective enablement of the scorers query on the competition page
(the page passes `{ limit: 10 }`). -/
def scorersEnabledOnPage (code : Option String)
    (parent : QueryResult FullCompetition) : Bool :=
  (useScorers code (some { limit := some 10 }) (competitionDetailChildEnabled code parent)).enabled

/-- Effective enablement of the teams query on the competition page. -/
def teamsEnabledOnPage (code : Option String)
    (parent : QueryResult FullCompetition) : Bool :=
  (useTeams code none (competitionDetailChildEnabled code parent)).enabled

/-- Effective enablement of the upcoming-matches query on the competition
page (the page passes `{ status: 'SCHEDULED' }`). -/
def compMatchesEnabledOnPage (code : Option String)
    (parent : QueryResult FullCompetition) : Bool :=
  (useCompetitionMatches code (some { status := some "SCHEDULED" })
    (competitionDetailChildEnabled code parent)).enabled

/-! ## Sorting lemmas for the timeline merge -/

theorem mem_insertByMinute {x a : TimelineEvent} :
    ∀ {l : List TimelineEvent}, a ∈ insertByMinute x l ↔ a = x ∨ a ∈ l := by
  intro l
  induction l with
  | nil => simp [insertByMinute]
  | cons y ys ih =>
    by_cases h : x.minute ≤ y.minute
    · simp [insertByMinute, h]
    · simp only [insertByMinute, if_neg h, List.mem_cons, ih]
      tauto

theorem pairwise_insertByMinute {x : TimelineEvent} :
    ∀ {l : List TimelineEvent},
      l.Pairwise (fun a b => a.minute ≤ b.minute) →
      (insertByMinute x l).Pairwise (fun a b => a.minute ≤ b.minute) := by
  intro l
  induction l with
  | nil => intro _; simp [insertByMinute]
  | cons y ys ih =>
    intro hp
    rw [List.pairwise_cons] at hp
    obtain ⟨hy, hys⟩ := hp
    by_cases h : x.minute ≤ y.minute
    · simp only [insertByMinute, if_pos h]
      refine List.Pairwise.cons ?_ (List.Pairwise.cons hy hys)
      intro z hz
      rcases List.mem_cons.mp hz with rfl | hz'
      · exact h
      · exact le_trans h (hy z hz')
    · simp only [insertByMinute, if_neg h]
      refine List.Pairwise.cons ?_ (ih hys)
      intro z hz
      rcases mem_insertByMinute.mp hz with rfl | hz'
      · exact (not_le.mp h).le
      · exact hy z hz'

theorem pairwise_sortByMinute (l : List TimelineEvent) :
    (sortByMinute l).Pairwise (fun a b => a.minute ≤ b.minute) := by
  induction l with
  | nil => simp [sortByMinute]
  | cons x xs ih => exact pairwise_insertByMinute ih

theorem insertByMinute_of_le {x : TimelineEvent} {l : List TimelineEvent}
    (h : ∀ y ∈ l, x.minute ≤ y.minute) : insertByMinute x l = x :: l := by
  cases l with
  | nil => rfl
  | cons y ys => simp [insertByMinute, h y (List.mem_cons_self y ys)]

theorem sortByMinute_eq_of_pairwise :
    ∀ {l : List TimelineEvent},
      l.Pairwise (fun a b => a.minute ≤ b.minute) → sortByMinute l = l := by
  intro l
  induction l with
  | nil => intro _; rfl
  | cons x xs ih =>
    intro hp
    rw [List.pairwise_cons] at hp
    show insertByMinute x (sortByMinute xs) = x :: xs
    rw [ih hp.2]
    exact insertByMinute_of_le hp.1

theorem filter_insertByMinute (m : Int) (x : TimelineEvent) :
    ∀ l : List TimelineEvent,
      (insertByMinute x l).filter (fun e => e.minute == m) =
        ((x :: l).filter (fun e => e.minute == m)) := by
  intro l
  induction l with
  | nil => rfl
  | cons y ys ih =>
    by_cases h : x.minute ≤ y.minute
    · simp only [insertByMinute, if_pos h]
    · simp only [insertByMinute, if_neg h]
      rw [List.filter_cons, List.filter_cons, ih, List.filter_cons, List.filter_cons]
      by_cases hx : x.minute = m <;> by_cases hy : y.minute = m
      · exfalso; omega
      · simp [hx, hy]
      · simp [hx, hy]
      · simp [hx, hy]

theorem filter_sortByMinute (m : Int) :
    ∀ l : List TimelineEvent,
      (sortByMinute l).filter (fun e => e.minute == m) =
        l.filter (fun e => e.minute == m) := by
  intro l
  induction l with
  | nil => rfl
  | cons x xs ih =>
    show (insertByMinute x (sortByMinute xs)).filter _ = _
    rw [filter_insertByMinute, List.filter_cons, List.filter_cons, ih]

/-! ## Concrete events used in the claims -/

/-- A goal at minute 10 with no additional time. -/
def g10 : Goal := { minute := 10, injuryTime := none, scorer := "Scorer A" }

/-- A booking at minute 10. -/
def b10 : Booking := { minute := 10, player := "Player B", card := "YELLOW" }

/-- A goal at minute 45 with additional time 2 (effective minute 47). -/
def g45 : Goal := { minute := 45, injuryTime := some 2, scorer := "Scorer C" }

/-- A booking at minute 46. -/
def b46 : Booking := { minute := 46, player := "Player D", card := "YELLOW" }

/-- A booking at minute 48. -/
def b48 : Booking := { minute := 48, player := "Player E", card := "RED" }

/-- Claim C4: the timeline merge is deterministic and idempotent —
re-sorting the merged output leaves it unchanged; for events with equal
effective minute the output preserves source-list precedence (filtering
the output at any minute gives exactly the input events at that minute,
goals first, then bookings, then substitutions, each in insertion order);
and merging goals=[g@10], bookings=[b@10], substitutions=[] yields exactly
[g@10, b@10]. -/
theorem timeline_merge_idempotent_and_stable :
    ∀ (goals : Option (List Goal)) (bookings : Option (List Booking))
      (substitutions : Option (List Substitution)),
      sortByMinute (getTimelineEvents goals bookings substitutions) =
        getTimelineEvents goals bookings substitutions
    ∧ (∀ m : Int,
        (getTimelineEvents goals bookings substitutions).filter (fun e => e.minute == m) =
          (timelineInput goals bookings substitutions).filter (fun e => e.minute == m))
    ∧ getTimelineEvents (some [g10]) (some [b10]) (some []) =
        [goalEvent g10, bookingEvent b10] := by
  intro goals bookings substitutions
  exact ⟨sortByMinute_eq_of_pairwise (pairwise_sortByMinute _),
    fun m => filter_sortByMinute m _, by decide⟩

/-- Claim C5: the timeline merge orders events ascending by effective
minute, where a goal's effective minute is its nominal minute plus its
additional-time offset (0 when absent) while bookings and substitutions
use their nominal minute; in particular a goal at minute 45 with
additional time 2 sorts after a booking at minute 46 and before a booking
at minute 48. -/
theorem timeline_merge_orders_by_effective_minute :
    ∀ (goals : Option (List Goal)) (bookings : Option (List Booking))
      (substitutions : Option (List Substitution)),
      (getTimelineEvents goals bookings substitutions).Pairwise
        (fun a b => a.minute ≤ b.minute)
    ∧ (∀ g : Goal, (goalEvent g).minute = g.minute + g.injuryTime.getD 0)
    ∧ (∀ b : Booking, (bookingEvent b).minute = b.minute)
    ∧ (∀ s : Substitution, (substitutionEvent s).minute = s.minute)
    ∧ getTimelineEvents (some [g45]) (some [b46, b48]) none =
        [bookingEvent b46, goalEvent g45, bookingEvent b48] := by
  intro goals bookings substitutions
  exact ⟨pairwise_sortByMinute _, fun _ => rfl, fun _ => rfl, fun _ => rfl, by decide⟩

/-- Claim C1: every failed request is classified into exactly one
structured error kind — NETWORK_ERROR exactly when no response reached the
client, CLIENT_ERROR carrying the status exactly when the status is in
[400, 500), SERVER_ERROR carrying the status exactly when the status is at
least 500, and UNKNOWN_ERROR in every remaining case; the characterizing
conditions are mutually exclusive and cover all failures. -/
theorem classify_total_and_exclusive :
    ∀ e : AxiosFailure,
      ((classify e).type = ErrType.NETWORK_ERROR ↔ e.response = none)
    ∧ ((classify e).type = ErrType.CLIENT_ERROR ↔
        ∃ r, e.response = some r ∧ 400 ≤ r.status ∧ r.status < 500)
    ∧ ((classify e).type = ErrType.SERVER_ERROR ↔
        ∃ r, e.response = some r ∧ 500 ≤ r.status)
    ∧ ((classify e).type = ErrType.UNKNOWN_ERROR ↔
        ∃ r, e.response = some r ∧ r.status < 400)
    ∧ ((classify e).status = e.response.bind
        (fun r => if 400 ≤ r.status then some r.status else none)) := by
  intro e
  rcases e with ⟨msg, resp⟩
  cases resp with
  | none => simp [classify]
  | some r =>
    by_cases h4 : 400 ≤ r.status
    · by_cases h5 : r.status < 500
      · simp [classify, h4, h5]
      · have h5a : 500 ≤ r.status := by omega
        simp [classify, h4, h5, h5a]
    · have h4a : ¬ 500 ≤ r.status := by omega
      simp [classify, h4, h4a]
      omega

/-- Claim C2 counterexample: the hooks pass the plain numeric option
`retry: 2`, which the query library applies to every failure kind, so a
CLIENT_ERROR result of the matches query is retried twice, not zero
times. -/
theorem client_retry_not_zero_cex :
    retriesFor (useMatches {} {} true) ErrType.CLIENT_ERROR ≠ 0 := by decide

/-- Claim C2 as amended: every failure of the matches queries — including
CLIENT_ERROR, since the numeric `retry: 2` does not discriminate by error
kind — is retried up to 2 times with delay
min(1000 * 2 ^ attempt, 30000) ms, strictly increasing below the
30-second cap; the head-to-head query retries at most once. -/
theorem retry_policy_amended (o : GetMatchesOptions) (u : UnfoldOptions) (en : Bool)
    (mid : Option Int) (lim : Int) (dateFrom dateTo : String) (comps : Option String)
    (t : ErrType) (a b : Nat) (hab : a < b) (hb : retryDelayFn b < 30000) :
    retriesFor (useMatches o u en) t = 2
    ∧ retriesFor (useTodayMatches u en) t = 2
    ∧ retriesFor (useMatchById mid u en) t = 2
    ∧ retriesFor (useLiveMatches u en) t = 2
    ∧ retriesFor (useScheduledMatches dateFrom dateTo comps en) t = 2
    ∧ retriesFor (useHead2Head mid lim u en) t = 1
    ∧ (useMatches o u en).retryDelay = some retryDelayFn
    ∧ (useTodayMatches u en).retryDelay = some retryDelayFn
    ∧ (useMatchById mid u en).retryDelay = some retryDelayFn
    ∧ (useLiveMatches u en).retryDelay = some retryDelayFn
    ∧ (useHead2Head mid lim u en).retryDelay = none
    ∧ retryDelayFn a = min (1000 * 2 ^ a) 30000
    ∧ retryDelayFn a ≤ 30000
    ∧ retryDelayFn a < retryDelayFn b := by
  refine ⟨rfl, rfl, rfl, rfl, rfl, rfl, rfl, rfl, rfl, rfl, rfl, rfl,
    min_le_right _ _, ?_⟩
  have h2 : (2 : Nat) ^ a < 2 ^ b := Nat.pow_lt_pow_right (by norm_num) hab
  simp only [retryDelayFn, Nat.min_def] at hb ⊢
  split_ifs at hb ⊢ <;> omega

/-- Witness for the amended retry policy at concrete inputs: the matches
query retries a CLIENT_ERROR twice, and the delay strictly increases from
attempt 0 to attempt 1. -/
theorem retry_policy_amended_witness :
    retriesFor (useMatches {} {} true) ErrType.CLIENT_ERROR = 2 ∧
    retryDelayFn 0 < retryDelayFn 1 := by
  have h := retry_policy_amended {} {} true none 10 "2024-03-01" "2024-03-07" none
    ErrType.CLIENT_ERROR 0 1 (by decide) (by decide)
  obtain ⟨h1, _, _, _, _, _, _, _, _, _, _, _, _, h14⟩ := h
  exact ⟨h1, h14⟩

/-- Claim C3: on the competition page, each of the four child queries
(standings, scorers, teams, matches) is enabled exactly when the route has
a competition code and the parent competition query has resolved
successfully; in particular none of them is issued while the parent is
still pending or has errored. -/
theorem competition_children_gated_on_parent :
    ∀ (code : Option String) (parent : QueryResult FullCompetition),
      (standingsEnabledOnPage code parent = true ↔
        jsTruthyStr code = true ∧ ∃ c, parent = QueryResult.success c)
    ∧ (scorersEnabledOnPage code parent = true ↔
        jsTruthyStr code = true ∧ ∃ c, parent = QueryResult.success c)
    ∧ (teamsEnabledOnPage code parent = true ↔
        jsTruthyStr code = true ∧ ∃ c, parent = QueryResult.success c)
    ∧ (compMatchesEnabledOnPage code parent = true ↔
        jsTruthyStr code = true ∧ ∃ c, parent = QueryResult.success c) := by
  intro code parent
  cases parent <;>
    simp [standingsEnabledOnPage, scorersEnabledOnPage, teamsEnabledOnPage,
      compMatchesEnabledOnPage, useStandings, useScorers, useTeams,
      useCompetitionMatches, competitionDetailChildEnabled, QueryResult.dataOf,
      Bool.and_eq_true, and_self]

/-- Claim C6 counterexample: with a missing match id the query is
disabled, so the caller observes a pending query — it is not reported the
validation failure `Match ID is required`. -/
theorem match_by_id_missing_id_cex :
    useMatchByIdRun none {} true = QueryResult.pending ∧
    useMatchByIdRun none {} true ≠ QueryResult.failure "Match ID is required" := by
  exact ⟨rfl, by decide⟩

/-- Claim C6 as amended: with a missing match id the query does not
execute and no network request is issued — but the caller is not reported
an error: the query stays pending with neither data nor failure, and the
validation error `Match ID is required` exists only inside the query
function, which the disabled query never invokes. -/
theorem match_by_id_missing_id_amended :
    ∀ (u : UnfoldOptions) (en : Bool),
      (useMatchById none u en).enabled = false
    ∧ useMatchByIdRun none u en = QueryResult.pending
    ∧ issuedRequest (useMatchById none u en).enabled (useMatchByIdQueryFn none u) = none
    ∧ useMatchByIdQueryFn none u = Except.error "Match ID is required"
    ∧ useMatchByIdRun none u en ≠ QueryResult.failure "Match ID is required"
    ∧ (∀ r : ApiRequest, useMatchByIdRun none u en ≠ QueryResult.success r) := by
  intro u en
  refine ⟨?_, ?_, ?_, rfl, ?_, ?_⟩
  · simp [useMatchById, jsTruthyInt]
  · simp [useMatchByIdRun, runQuery, useMatchById, jsTruthyInt]
  · simp [issuedRequest, useMatchById, jsTruthyInt]
  · simp [useMatchByIdRun, runQuery, useMatchById, jsTruthyInt]
  · intro r
    simp [useMatchByIdRun, runQuery, useMatchById, jsTruthyInt]

/-- Claim C7: every match query key includes the unfold flags next to the
resource kind and the request parameters, so two calls differing only in
some expansion flag compute distinct cache keys and are cached
separately. -/
theorem cache_keys_distinguish_unfold :
    ∀ (o : GetMatchesOptions) (mid : Option Int) (lim : Int)
      (u v : UnfoldOptions) (en : Bool), u ≠ v →
      (useMatches o u en).queryKey ≠ (useMatches o v en).queryKey
    ∧ (useTodayMatches u en).queryKey ≠ (useTodayMatches v en).queryKey
    ∧ (useMatchById mid u en).queryKey ≠ (useMatchById mid v en).queryKey
    ∧ (useLiveMatches u en).queryKey ≠ (useLiveMatches v en).queryKey
    ∧ (useHead2Head mid lim u en).queryKey ≠ (useHead2Head mid lim v en).queryKey := by
  intro o mid lim u v en hne
  refine ⟨?_, ?_, ?_, ?_, ?_⟩
  · intro hk
    exact hne (by simpa [useMatches] using hk)
  · intro hk
    exact hne (by simpa [useTodayMatches] using hk)
  · intro hk
    exact hne (by simpa [useMatchById] using hk)
  · intro hk
    exact hne (by simpa [useLiveMatches] using hk)
  · intro hk
    exact hne (by simpa [useHead2Head] using hk)

/-- Witness for the cache-key claim: two matches queries differing only in
the lineups expansion flag get distinct keys. -/
theorem cache_keys_distinguish_unfold_witness :
    (useMatches {} { lineups := some true } true).queryKey ≠
      (useMatches {} {} true).queryKey := by
  have h := cache_keys_distinguish_unfold {} none 10 { lineups := some true } {} true
    (by decide)
  exact h.1

/-- Claim C8 counterexample: the live-matches query uses a staleness
window of 30 seconds, not the claimed 2 minutes. -/
theorem live_staleness_cex :
    (useLiveMatches { goals := some true } true).staleTime = 30000 ∧
    (useLiveMatches { goals := some true } true).staleTime ≠ 2 * 60 * 1000 := by
  exact ⟨rfl, by decide⟩

/-- Claim C8 as amended: the today's-matches query uses a staleness window
of 2 minutes with 60-second polling; the live-matches query uses a
staleness window of 30 seconds (not 2 minutes) with 30-second polling —
both polling intervals lie in [30 s, 60 s]; the competition-list and
head-to-head queries use a 5-minute staleness window (within 5-10
minutes) and configure no polling interval. -/
theorem staleness_polling_amended :
    ∀ (u : UnfoldOptions) (en : Bool) (co : GetCompetitionsOptions)
      (mid : Option Int) (lim : Int),
      (useTodayMatches u en).staleTime = 2 * 60 * 1000
    ∧ (useTodayMatches u en).refetchInterval = some 60000
    ∧ 30000 ≤ (useTodayMatches u en).refetchInterval.getD 0
    ∧ (useTodayMatches u en).refetchInterval.getD 0 ≤ 60000
    ∧ (useLiveMatches u en).staleTime = 30000
    ∧ (useLiveMatches u en).refetchInterval = some 30000
    ∧ 30000 ≤ (useLiveMatches u en).refetchInterval.getD 0
    ∧ (useLiveMatches u en).refetchInterval.getD 0 ≤ 60000
    ∧ (useCompetitions co en).staleTime = 5 * 60 * 1000
    ∧ 5 * 60 * 1000 ≤ (useCompetitions co en).staleTime
    ∧ (useCompetitions co en).staleTime ≤ 10 * 60 * 1000
    ∧ (useCompetitions co en).refetchInterval = none
    ∧ (useHead2Head mid lim u en).staleTime = 5 * 60 * 1000
    ∧ 5 * 60 * 1000 ≤ (useHead2Head mid lim u en).staleTime
    ∧ (useHead2Head mid lim u en).staleTime ≤ 10 * 60 * 1000
    ∧ (useHead2Head mid lim u en).refetchInterval = none := by
  intro u en co mid lim
  refine ⟨rfl, rfl, ?_, ?_, rfl, rfl, ?_, ?_, rfl, ?_, ?_, rfl, rfl, ?_, ?_, rfl⟩ <;>
    norm_num [useTodayMatches, useLiveMatches, useCompetitions, useHead2Head,
      matchesCacheTime, competitionsStaleTime]

/-- Claim C9: for every unfold-options value, `getLiveMatches` issues
exactly the request of `getMatches({ status: 'IN_PLAY' })`: the only
status requested is IN_PLAY, never PAUSED, even though the UI treats both
IN_PLAY and PAUSED as live. -/
theorem live_matches_refines_in_play :
    ∀ u : UnfoldOptions,
      MatchesService.getLiveMatches u =
        MatchesService.getMatches { status := some MatchStatus.IN_PLAY } u
    ∧ requestedStatus (MatchesService.getLiveMatches u) = some MatchStatus.IN_PLAY
    ∧ requestedStatus (MatchesService.getLiveMatches u) ≠ some MatchStatus.PAUSED
    ∧ isLive MatchStatus.IN_PLAY = true
    ∧ isLive MatchStatus.PAUSED = true := by
  intro u
  refine ⟨rfl, rfl, ?_, rfl, rfl⟩
  simp [MatchesService.getLiveMatches, MatchesService.getMatches, requestedStatus]

/-- Claim C10: for every unfold-options value, `getTodayMatches` equals
`getMatches({})`: the request carries no date parameter at all — the
restriction to today's matches is upstream default behavior, not requested
by the client. -/
theorem today_matches_no_date_param :
    ∀ u : UnfoldOptions,
      MatchesService.getTodayMatches u = MatchesService.getMatches {} u
    ∧ requestedDate (MatchesService.getTodayMatches u) = none
    ∧ (MatchesService.getTodayMatches u).params = ReqParams.matchesParams {} := by
  intro u
  exact ⟨rfl, rfl, rfl⟩

end FootballData
